import Mathlib

/-!
Shallow embedding of the CASK key codec library (libcask, C++ sources:
cask.cpp, cask_dependencies.cpp, helpers.cpp, base64url.h) together with
theorems settling the specification claims.

Modelling conventions:
* C strings (`const char*`) become `Option (List Char)`: `none` models a null
  pointer, `some l` a null-terminated string with contents `l`.
* Byte buffers become `List Nat` with the invariant that entries are `< 256`
  carried as hypotheses where it matters.
* `int32_t` values become `Int`; C++ `/` and `%` on `int` truncate toward
  zero, which is `Int.tdiv` / `Int.tmod`.  Where a C++ expression can
  overflow `uint32_t` / `int` arithmetic the wraparound is made explicit as
  `% 4294967296`.
* Functions that throw exceptions become `Except CaskError _`.  `CaskError`
  mirrors the exception types actually thrown by the code.
* The two environmental capabilities are injected as arguments: the CSPRNG
  output consumed by `FillRandom` as a `List Nat`, and the UTC clock reading
  consumed via `GetUtcNow`/`gmtime` as `year`/`month` arguments.
* The debug macro `assert(...)` (inactive under NDEBUG) is modelled as a
  no-op; the assertion in `Cask_GenerateKey` is analysed separately.
-/

/-- Error values: the C++ code throws `std::invalid_argument` (modelled by
`invalidArgument`) and `std::runtime_error` (modelled by `runtimeError`),
each carrying the message string. -/
inductive CaskError where
  | invalidArgument (message : String)
  | runtimeError (message : String)
deriving DecidableEq, Repr

deriving instance DecidableEq for Except

/-! ### helpers.h / helpers.cpp -/

/-- helpers.h: `const std::string Base64UrlChars = "ABC…-_"`. -/
def Base64UrlChars : List Char :=
  "ABCDEFGHIJKLMNOPQRSTUVWXYZabcdefghijklmnopqrstuvwxyz0123456789-_".toList

/-- helpers.cpp: `RoundUpToMultipleOf(value, multiple)`. -/
def RoundUpToMultipleOf (value multiple : Int) : Int :=
  ((value + multiple - 1).tdiv multiple) * multiple

/-- helpers.cpp: `RoundUpTo3ByteAlignment(bytes)`. -/
def RoundUpTo3ByteAlignment (bytes : Int) : Int :=
  RoundUpToMultipleOf bytes 3

/-- helpers.cpp: `RoundUpTo4CharAlignment(chars)`. -/
def RoundUpTo4CharAlignment (chars : Int) : Int :=
  RoundUpToMultipleOf chars 4

/-- helpers.cpp: `FixedKeyComponentSizeInBytes = 3 + 3 + 3 + 3`. -/
def FixedKeyComponentSizeInBytes : Int := 3 + 3 + 3 + 3

/-- helpers.cpp: `Is3ByteAligned(byteLength)`. -/
def Is3ByteAligned (byteLength : Int) : Bool :=
  byteLength.tmod 3 == 0

/-- helpers.cpp: `Is4CharAligned(charLength)`. -/
def Is4CharAligned (charLength : Int) : Bool :=
  charLength.tmod 4 == 0

/-- helpers.cpp: `GetKeyLengthInBytes`; throws `std::invalid_argument` when
either size is not 3-byte aligned. -/
def GetKeyLengthInBytes (secretEntropyInBytes providerDataLengthInBytes : Int) :
    Except CaskError Int :=
  if !Is3ByteAligned secretEntropyInBytes then
    .error (.invalidArgument
      ("secretEntropyInBytes should have been rounded up to 3-byte alignment already."))
  else if !Is3ByteAligned providerDataLengthInBytes then
    .error (.invalidArgument
      ("providerDataLengthInBytes should have been validated to 3-byte aligned already."))
  else
    .ok (secretEntropyInBytes + providerDataLengthInBytes + FixedKeyComponentSizeInBytes)

/-- helpers.cpp: `Base64CharsToBytes(chars)`. -/
def Base64CharsToBytes (chars : Int) : Int :=
  (RoundUpTo4CharAlignment chars).tdiv 4 * 3

/-- helpers.cpp: `BytesToBase64Chars(bytes)`. -/
def BytesToBase64Chars (bytes : Int) : Int :=
  (RoundUpTo3ByteAlignment bytes).tdiv 3 * 4

/-- helpers.cpp: `IsValidBase64UrlCharacter(c)`. -/
def IsValidBase64UrlCharacter (c : Char) : Bool :=
  decide (('A' ≤ c ∧ c ≤ 'Z') ∨ ('a' ≤ c ∧ c ≤ 'z') ∨ ('0' ≤ c ∧ c ≤ '9') ∨
    c = '-' ∨ c = '_')

/-- helpers.cpp: `IsValidForBase64Url(value)`; `none` models the null pointer
(the C++ function returns false for it). -/
def IsValidForBase64Url (value : Option (List Char)) : Bool :=
  match value with
  | none => false
  | some l => l.all IsValidBase64UrlCharacter

/-! ### base64url.h — `Base64Url::DecodeBase64` and `Base64Url::DecodeFromChars` -/

/-- base64url.h: the standard alphabet used by `DecodeBase64`. -/
def base64_std_chars : List Char :=
  "ABCDEFGHIJKLMNOPQRSTUVWXYZabcdefghijklmnopqrstuvwxyz0123456789+/".toList

/-- base64url.h: the decoding loop of `DecodeBase64`.  `buffer` is a
`uint32_t` (hence the `% 4294967296`); `(buffer << 6) | pos` equals
`buffer * 64 + pos` because `pos < 64`; `(buffer >> k) & 0xFF` is
`buffer / 2 ^ k % 256`.  `std::string::find` returning `npos` is modelled by
`List.findIdx` returning the alphabet length 64. -/
def decodeLoop : List Char → Nat → Nat → List Nat → Except CaskError (List Nat)
  | [], _, _, out => .ok out
  | c :: rest, buffer, bits, out =>
    if c = '=' then .ok out
    else
      let pos := base64_std_chars.findIdx (fun x => x == c)
      if 64 ≤ pos then .error (.invalidArgument ("Invalid Base64 character."))
      else
        let buffer1 := (buffer * 64 + pos) % 4294967296
        let bits1 := bits + 6
        if 8 ≤ bits1 then
          decodeLoop rest buffer1 (bits1 - 8) (out ++ [buffer1 / 2 ^ (bits1 - 8) % 256])
        else
          decodeLoop rest buffer1 bits1 out

/-- base64url.h: `Base64Url::DecodeBase64(input, destination)`.  The
destination span is modelled by its size; the decoded bytes and the returned
count are the result.  The source reads `input[in_len - 1]` and
`input[in_len - 2]`, which for an empty input are out-of-bounds reads of a
`std::string`; they are modelled as yielding a non-`'='` character (the
intent of the check is the absence of trailing padding). -/
def DecodeBase64 (input : List Char) (destSize : Nat) :
    Except CaskError (List Nat × Nat) :=
  let in_len := input.length
  if in_len % 4 ≠ 0 then .error (.invalidArgument ("Invalid Base64 input length."))
  else
    let out_len := in_len / 4 * 3
    let out_len := if input.getD (in_len - 1) 'A' = '=' then out_len - 1 else out_len
    let out_len := if input.getD (in_len - 2) 'A' = '=' then out_len - 1 else out_len
    if destSize < out_len then
      .error (.invalidArgument ("Destination span is too small to hold the decoded data."))
    else
      (decodeLoop input 0 0 []).map (fun out => (out, out.length))

/-- base64url.h: `Base64Url::DecodeFromChars(source, destination)`:
replace `'-'` by `'+'` and `'_'` by `'/'`, pad with `'='` to a multiple of
4, then `DecodeBase64`. -/
def DecodeFromChars (source : List Char) (destSize : Nat) :
    Except CaskError (List Nat × Nat) :=
  let input := source.map (fun c => if c = '-' then '+' else c)
  let input := input.map (fun c => if c = '_' then '/' else c)
  let input := input ++ List.replicate ((4 - input.length % 4) % 4) '='
  DecodeBase64 input destSize

/-! ### cask_dependencies.cpp — `Base64UrlEncode`, `ComputeCrc32` -/

/-- cask_dependencies.cpp: `base64_chars` (already URL-safe: `-` and `_`). -/
def base64_chars : List Char :=
  "ABCDEFGHIJKLMNOPQRSTUVWXYZabcdefghijklmnopqrstuvwxyz0123456789-_".toList

/-- cask_dependencies.cpp: the inner `while (valb >= 0)` loop of
`Base64UrlEncode`: emit `base64_chars[(val >> valb) & 0x3F]` and decrease
`valb` by 6.  On every call `valb ≤ 6`, so the loop runs at most twice; the
explicit bound makes the recursion structural.  Returns the final `valb`
and the extended output. -/
def pushLoop : Nat → Nat → Int → List Char → Int × List Char
  | 0, _, valb, acc => (valb, acc)
  | bound + 1, val, valb, acc =>
    if 0 ≤ valb then
      pushLoop bound val (valb - 6)
        (acc ++ [base64_chars.getD (val / 2 ^ valb.toNat % 64) 'A'])
    else (valb, acc)

/-- cask_dependencies.cpp: one iteration of the byte loop of
`Base64UrlEncode`.  `val` is a C++ `int` accumulating `(val << 8) + c`;
its 32-bit wraparound (signed overflow in the source) is modelled as
`% 4294967296`, which is faithful for every emitted character since only
bits below 12 of `val` are ever consulted. -/
def encodeStep (st : Nat × Int × List Char) (c : Nat) : Nat × Int × List Char :=
  let val := (st.1 * 256 + c) % 4294967296
  let r := pushLoop 2 val (st.2.1 + 8) st.2.2
  (val, r.1, r.2)

/-- cask_dependencies.cpp: `Base64UrlEncode(bytes)`.  After the byte loop a
partial group is flushed when `valb > -6`, `'='` padding is appended to a
multiple of 4, `'+'`/`'/'` are replaced by `'-'`/`'_'` (no-ops for this
alphabet) and the `'='` characters are erased again. -/
def Base64UrlEncode (bytes : List Nat) : List Char :=
  let st := bytes.foldl encodeStep (0, -6, [])
  let encoded :=
    if st.2.1 > -6 then
      st.2.2 ++ [base64_chars.getD (st.1 * 256 % 4294967296 / 2 ^ (st.2.1 + 8).toNat % 64) 'A']
    else st.2.2
  let encoded := encoded ++ List.replicate ((4 - encoded.length % 4) % 4) '='
  let encoded := encoded.map (fun c => if c = '+' then '-' else c)
  let encoded := encoded.map (fun c => if c = '/' then '_' else c)
  encoded.filter (fun c => c != '=')

/-- cask_dependencies.cpp: `ComputeCrc32(bytes)` — the source is a stub that
returns 0 for every input. -/
def ComputeCrc32 (bytes : List Nat) : Int := 0

/-- One bit step of the reflected CRC-32: shift right, conditionally XOR the
reflected IEEE polynomial `0xEDB88320`. -/
def crc32UpdateBit (crc : Nat) : Nat :=
  if crc % 2 = 1 then Nat.xor (crc / 2) 0xEDB88320 else crc / 2

/-- Eight CRC-32 bit steps. -/
def crc32UpdateBits : Nat → Nat → Nat
  | 0, crc => crc
  | n + 1, crc => crc32UpdateBits n (crc32UpdateBit crc)

/-- Modelled from the spec (§4.2): the standard CRC-32 — reflected IEEE
polynomial `0xEDB88320`, initial value `0xFFFFFFFF`, final XOR `0xFFFFFFFF`,
least-significant-bit-first byte processing.  This is the specification-side
definition against which the stub `ComputeCrc32` is compared, and the CRC
used by the spec-modelled `ComputeChecksum`. -/
def Crc32Spec (bytes : List Nat) : Nat :=
  Nat.xor (bytes.foldl (fun crc b => crc32UpdateBits 8 (Nat.xor crc b)) 0xFFFFFFFF) 0xFFFFFFFF

/-- Modelled from the spec: `ComputeChecksum(keyBytes, destination)` is
called by `Cask_GenerateKey` but its implementation is absent from the
sources (only the call site exists).  Per spec §4.5 step 11 it computes
CRC-32 over all key bytes except the final 3-byte checksum slot and stores
the little-endian low 3 bytes of the result there; this model returns those
3 bytes. -/
def ComputeChecksum (keyBytes : List Nat) : List Nat :=
  let crc := Crc32Spec (keyBytes.take (keyBytes.length - 3))
  [crc % 256, crc / 256 % 256, crc / 65536 % 256]

/-! ### cask.cpp — constants, validators, `FillRandom`, `Cask_GenerateKey`,
`Cask_IsCask` -/

/-- cask.cpp: `MaxProviderDataLengthInBytes = RoundUpTo3ByteAlignment(24)`. -/
def MaxProviderDataLengthInBytes : Int := RoundUpTo3ByteAlignment 24

/-- cask.cpp: `MaxProviderDataLengthInChars = BytesToBase64Chars(…)`. -/
def MaxProviderDataLengthInChars : Int := BytesToBase64Chars MaxProviderDataLengthInBytes

/-- cask.cpp: `MinSecretEntropyInBytes = RoundUpTo3ByteAlignment(16)`. -/
def MinSecretEntropyInBytes : Int := RoundUpTo3ByteAlignment 16

/-- cask.cpp: `MaxSecretEntropyInBytes = RoundUpTo3ByteAlignment(64)`. -/
def MaxSecretEntropyInBytes : Int := RoundUpTo3ByteAlignment 64

/-- cask.cpp: `ValidateProviderSignature`. -/
def ValidateProviderSignature (providerSignature : Option (List Char)) :
    Except CaskError Unit :=
  match providerSignature with
  | none => .error (.invalidArgument ("Provider signature must not be null."))
  | some s =>
    if s.length ≠ 4 then
      .error (.invalidArgument ("Provider signature must be 4 characters long."))
    else if !IsValidForBase64Url (some s) then
      .error (.invalidArgument ("Provider signature must be a valid URL-safe Base64 string."))
    else .ok ()

/-- cask.cpp: `ValidateAllocatorCode`. -/
def ValidateAllocatorCode (allocatorCode : Option (List Char)) :
    Except CaskError Unit :=
  match allocatorCode with
  | none => .error (.invalidArgument ("Allocator code must not be null."))
  | some s =>
    if s.length ≠ 2 then
      .error (.invalidArgument ("Allocator code must be 2 characters long."))
    else if !IsValidForBase64Url (some s) then
      .error (.invalidArgument ("Allocator code must be a valid URL-safe Base64 string."))
    else .ok ()

/-- cask.cpp: `ValidateProviderData`.  The messages embed numbers via
`std::to_string`; `\x27` is the apostrophe character of the original text. -/
def ValidateProviderData (providerData : Option (List Char)) :
    Except CaskError Unit :=
  match providerData with
  | none => .error (.invalidArgument ("Provider data must not be null."))
  | some d =>
    if (d.length : Int) > MaxProviderDataLengthInChars then
      .error (.invalidArgument
        ("Provider data must be at most " ++ toString MaxProviderDataLengthInChars ++
          " characters: \x27" ++ toString d.length ++ "\x27."))
    else if !Is4CharAligned (d.length : Int) then
      .error (.invalidArgument
        ("Provider data length must be a multiple of 4: " ++ toString d.length))
    else if !IsValidForBase64Url (some d) then
      .error (.invalidArgument ("Provider data must be a valid URL-safe Base64 string."))
    else .ok ()

/-- cask.cpp: `ValidateSecretEntropy` (called with the already rounded-up
size). -/
def ValidateSecretEntropy (secretEntropyInBytes : Int) : Except CaskError Unit :=
  if secretEntropyInBytes < MinSecretEntropyInBytes ∨
      secretEntropyInBytes > MaxSecretEntropyInBytes then
    .error (.invalidArgument
      ("Secret entropy must be between " ++ toString MinSecretEntropyInBytes ++
        " and " ++ toString MaxSecretEntropyInBytes ++ " bytes."))
  else .ok ()

/-- cask.cpp: `FillRandom(destination)`: throws on an empty span, otherwise
fills the span from the platform CSPRNG.  The CSPRNG output is injected as
`rng`; the span of size `destSize` receives its first `destSize` bytes.
(Failure of `BCryptGenRandom` — a `std::runtime_error` — is a capability
failure outside the scope of the claims and is not modelled.) -/
def FillRandom (destSize : Nat) (rng : List Nat) : Except CaskError (List Nat) :=
  if destSize = 0 then .error (.invalidArgument ("Destination span must not be empty."))
  else .ok (rng.take destSize)

/-- cask.cpp: `Cask_IsCask(keyOrHash)` — the source returns `false`
unconditionally. -/
def Cask_IsCask (keyOrHash : List Char) : Bool := false

/-- cask.cpp: `Cask_IsCaskBytes(keyOrHashBytes, length)` — the source
returns `false` unconditionally. -/
def Cask_IsCaskBytes (keyOrHashBytes : List Nat) (length : Int) : Bool := false

/-- cask.cpp: the body of `Cask_GenerateKey` up to (but excluding) the final
`std::copy` into the caller buffer: returns the value `keyLengthInBytes`
returned by the function together with the assembled raw key bytes.  The
clock reading obtained through `GetUtcNow`/`gmtime` is injected as
`year`/`month` (with `month = tm_mon + 1 ∈ [1, 12]`), the CSPRNG stream as
`rng`.  `allocatorCode[0]`/`[1]` and the `Base64UrlChars[...]` lookups are
in range whenever validation passed and the year check succeeded; `getD`
with default `'A'` models the in-range array accesses.  The
`assert(keyLengthInBytes <= 64)` and `assert(bytesWritten == …)` debug
assertions are no-ops here (see the claim about the former). -/
def GenerateKeyBody (allocatorCode providerSignature providerData : Option (List Char))
    (secretEntropyInBytes : Int) (rng : List Nat) (year month : Int) :
    Except CaskError (Int × List Nat) := do
  let secretEntropy := RoundUpTo3ByteAlignment secretEntropyInBytes
  ValidateProviderSignature providerSignature
  ValidateAllocatorCode allocatorCode
  ValidateProviderData providerData
  ValidateSecretEntropy secretEntropy
  let pd := providerData.getD []
  let ac := allocatorCode.getD []
  let ps := providerSignature.getD []
  let providerDataLengthInBytes := Base64CharsToBytes (pd.length : Int)
  let keyLengthInBytes ← GetKeyLengthInBytes secretEntropy providerDataLengthInBytes
  let secret ← FillRandom secretEntropy.toNat rng
  let pdDecoded ← DecodeFromChars pd (keyLengthInBytes - secretEntropy).toNat
  let sentinel : List Nat := [0x25, 0x04, 0x09]
  if year < 2024 ∨ year > 2087 then
    .error (.invalidArgument ("CASK requires the current year to be between 2024 and 2087."))
  else do
    let allocatorAndTimestamp : List Char :=
      [ac.getD 0 'A', ac.getD 1 'A',
        Base64UrlChars.getD (year - 2024).toNat 'A',
        Base64UrlChars.getD (month - 1).toNat 'A']
    let atsDecoded ← DecodeFromChars allocatorAndTimestamp
      (keyLengthInBytes - secretEntropy - providerDataLengthInBytes - 3).toNat
    let psDecoded ← DecodeFromChars ps
      (keyLengthInBytes - secretEntropy - providerDataLengthInBytes - 6).toNat
    let body := secret ++ pdDecoded.1 ++ sentinel ++ atsDecoded.1 ++ psDecoded.1
    let key := body ++ ComputeChecksum (body ++ [0, 0, 0])
    return (keyLengthInBytes, key)

/-- cask.cpp: `Cask_GenerateKey`.  The observable outcome is the pair of the
function result (the returned `keyLengthInBytes`, or the thrown exception)
and the final contents of the caller-owned output buffer, whose initial
contents are `out0`.  On success `std::copy` overwrites the first
`keyLengthInBytes` entries and leaves the rest untouched; the source never
reads `outputSizeInBytes`. -/
def Cask_GenerateKey (allocatorCode providerSignature providerData : Option (List Char))
    (secretEntropyInBytes : Int) (outputSizeInBytes : Int) (out0 : List Nat)
    (rng : List Nat) (year month : Int) :
    Except CaskError Int × List Nat :=
  match GenerateKeyBody allocatorCode providerSignature providerData
      secretEntropyInBytes rng year month with
  | .error e => (.error e, out0)
  | .ok r => (.ok r.1, r.2 ++ out0.drop r.2.length)

/-! ### Derived forms used by the proofs (all defined from the embedding) -/

/-- The position `std::string::find` computes in `DecodeBase64`: index of
`c` in the standard alphabet, 64 (= `npos` behaviour) when absent. -/
def posOf (c : Char) : Nat := base64_std_chars.findIdx (fun x => x == c)

/-- The character replacement performed by `DecodeFromChars`
(`'-' → '+'`, `'_' → '/'`), as a single function. -/
def replChar (c : Char) : Char :=
  if c = '-' then '+' else if c = '_' then '/' else c

/-- The three bytes `DecodeBase64` produces from one group of four alphabet
positions. -/
def decChunk (p0 p1 p2 p3 : Nat) : List Nat :=
  [p0 * 4 + p1 / 16, p1 % 16 * 16 + p2 / 4, p2 % 4 * 64 + p3]

/-- The bytes `DecodeBase64` produces from a padding-free input, one group
of four characters at a time. -/
def decChunks : List Char → List Nat
  | c0 :: c1 :: c2 :: c3 :: rest =>
    decChunk (posOf c0) (posOf c1) (posOf c2) (posOf c3) ++ decChunks rest
  | _ => []

/-- The characters `Base64UrlEncode` produces from a 3-byte-aligned input,
one group of three bytes at a time. -/
def encChunks : List Nat → List Char
  | b0 :: b1 :: b2 :: rest =>
    base64_chars.getD (b0 / 4) 'A' ::
    base64_chars.getD (b0 % 4 * 16 + b1 / 16) 'A' ::
    base64_chars.getD (b1 % 16 * 4 + b2 / 64) 'A' ::
    base64_chars.getD (b2 % 64) 'A' :: encChunks rest
  | _ => []

/-! ## Helper lemmas -/

theorem exceptBind_ok {ε α β : Type} (a : α) (f : α → Except ε β) :
    (Except.ok a : Except ε α) >>= f = f a := rfl

theorem exceptBind_error {ε α β : Type} (e : ε) (f : α → Except ε β) :
    (Except.error e : Except ε α) >>= f = .error e := rfl

theorem exceptMap_ok {ε α β : Type} (a : α) (f : α → β) :
    (Except.ok a : Except ε α).map f = .ok (f a) := rfl

theorem exceptMap_error {ε α β : Type} (e : ε) (f : α → β) :
    (Except.error e : Except ε α).map f = .error e := rfl

/-! ## Claim C1 -/

/-- C1: the claim states that for inputs accepted by the validators and an
in-range clock, `IsCask(GenerateKey(…))` returns true.  The source
`Cask_IsCask` returns `false` unconditionally, so it returns `false` even on
the key generated from valid inputs (allocator `AB`, signature `ACME`, empty
provider data, 18 bytes of entropy, clock 2024-01), refuting the claim on
the code as written. -/
theorem isCask_of_generated_key_is_false :
    Cask_IsCask (((Cask_GenerateKey (some ("AB".toList)) (some ("ACME".toList))
        (some []) 18 40 [] (List.replicate 18 0) 2024 1).2).map Char.ofNat) = false ∧
    (Cask_GenerateKey (some ("AB".toList)) (some ("ACME".toList))
        (some []) 18 40 [] (List.replicate 18 0) 2024 1).1 = .ok 30 := by
  exact ⟨rfl, by decide⟩

/-! ## Claim C2 -/

/-- C2: the claim states that `GenerateKey` writes the Base64-URL encoding
of the raw key and returns the textual length
`((roundUp3(entropy) + bytesFor(providerData) + 12) * 4) / 3`.  On valid
inputs (allocator `AB`, signature `ACME`, empty provider data, entropy 18)
the code instead copies the 30 raw bytes (the injected CSPRNG bytes appear
verbatim at the start of the output, and the raw sentinel byte `0x25`,
which is not a Base64 character code, appears at offset 18) and returns 30,
not the claimed 40. -/
theorem generateKey_writes_raw_bytes_not_base64 :
    (Cask_GenerateKey (some ("AB".toList)) (some ("ACME".toList)) (some [])
        18 40 [] (List.replicate 18 0) 2024 1).1 = .ok 30 ∧
    (Cask_GenerateKey (some ("AB".toList)) (some ("ACME".toList)) (some [])
        18 40 [] (List.replicate 18 0) 2024 1).2.take 19 =
      List.replicate 18 0 ++ [0x25] ∧
    ((RoundUpTo3ByteAlignment 18 + Base64CharsToBytes 0 + 12) * 4).tdiv 3 = 40 ∧
    (30 : Int) ≠ 40 := by
  refine ⟨by decide, by decide, by decide, by decide⟩

/-! ## Claim C3 -/

/-- C3: the claim states that `ComputeCrc32` is the standard reflected
CRC-32 (polynomial `0xEDB88320`, init and final XOR `0xFFFFFFFF`).  The
source is a stub returning 0; the standard CRC-32 of the single byte `0x00`
is `0xD202EF8D ≠ 0`, refuting the claim. -/
theorem computeCrc32_is_stub_not_crc32 :
    ComputeCrc32 [0] = 0 ∧ Crc32Spec [0] = 0xD202EF8D ∧
    (ComputeCrc32 [0]).toNat ≠ Crc32Spec [0] := by
  refine ⟨rfl, by decide, by decide⟩

/-! ## Claim C4 -/

/-- C4: the claim states that a call whose output buffer is smaller than the
required length fails with `BufferTooSmall` before any side effect.  The
source never reads `outputSizeInBytes` and performs no size check: with
`outputSizeInBytes = 0` and a 3-entry caller buffer, the call on valid
inputs still succeeds, returns 30 and writes all 30 key bytes over (and
past) the caller buffer. -/
theorem generateKey_has_no_buffer_size_check :
    (Cask_GenerateKey (some ("AB".toList)) (some ("ACME".toList)) (some [])
        18 0 [7, 7, 7] (List.replicate 18 0) 2024 1).1 = .ok 30 ∧
    (Cask_GenerateKey (some ("AB".toList)) (some ("ACME".toList)) (some [])
        18 0 [7, 7, 7] (List.replicate 18 0) 2024 1).2.length = 30 := by
  refine ⟨by decide, by decide⟩

/-! ## Claim C10 -/

/-- C10: the claim states that on inputs accepted by the four validators the
key length `S + P + 12` always satisfies the internal assertion
`keyLengthInBytes <= 64`.  The validators accept `secretEntropyInBytes = 64`
(rounded up to 66) with empty provider data, for which
`GetKeyLengthInBytes` returns 78 > 64 — the assertion fires on a validated
input. -/
theorem keyLength_assertion_violated_on_validated_input :
    ValidateProviderSignature (some ("ACME".toList)) = .ok () ∧
    ValidateAllocatorCode (some ("AB".toList)) = .ok () ∧
    ValidateProviderData (some []) = .ok () ∧
    RoundUpTo3ByteAlignment 64 = 66 ∧
    ValidateSecretEntropy (RoundUpTo3ByteAlignment 64) = .ok () ∧
    GetKeyLengthInBytes (RoundUpTo3ByteAlignment 64) (Base64CharsToBytes 0) = .ok 78 ∧
    ¬ ((78 : Int) ≤ 64) := by
  refine ⟨by decide, by decide, by decide, by decide, by decide, by decide, by decide⟩

/-! ## Claim C7 (counterexample) -/

/-- C7 counterexample: the claim states that `DecodeFromChars` fails with an
invalid-character error on every input containing a character outside the
Base64-URL alphabet.  The character `'+'` is outside the Base64-URL alphabet
(`IsValidBase64UrlCharacter '+' = false`), yet `"++++"` decodes
successfully: the decoder maps `'-'`/`'_'` to `'+'`/`'/'` and then accepts
the standard alphabet, so a literal `'+'` or `'/'` is accepted as well. -/
theorem decodeFromChars_accepts_plus :
    IsValidBase64UrlCharacter '+' = false ∧
    DecodeFromChars ("++++".toList) 3 = .ok ([251, 239, 190], 3) := by
  refine ⟨by decide, by decide⟩

/-! ## Claim C9 (counterexample) -/

/-- C9 counterexample: the claim states that an out-of-range clock year
makes `GenerateKey` fail with a distinct `TimestampOutOfRange` error kind,
not `InvalidArgument`.  The source throws `std::invalid_argument` — the very
same exception type every validator throws (compare the second conjunct) —
so the kind is not distinct; only the message text differs. -/
theorem year_out_of_range_error_is_invalid_argument :
    (Cask_GenerateKey (some ("AB".toList)) (some ("ACME".toList)) (some [])
        18 40 [] (List.replicate 18 0) 2088 1).1 =
      .error (.invalidArgument ("CASK requires the current year to be between 2024 and 2087.")) ∧
    ValidateProviderData (some ("AB".toList)) =
      .error (.invalidArgument ("Provider data length must be a multiple of 4: 2")) := by
  refine ⟨by decide, by decide⟩


/-- decodeLoop single step, accumulating case (bits + 6 < 8). -/
theorem decodeLoop_step_low (c : Char) (rest : List Char) (buf bits : Nat) (out : List Nat)
    (hne : c ≠ '=') (hp : posOf c < 64) (hb : bits < 2) :
    decodeLoop (c :: rest) buf bits out =
      decodeLoop rest ((buf * 64 + posOf c) % 4294967296) (bits + 6) out := by
  have h1 : ¬ (64 ≤ base64_std_chars.findIdx (fun x => x == c)) := by
    simpa [posOf] using hp
  have h2 : ¬ (8 ≤ bits + 6) := by omega
  simp only [decodeLoop, if_neg hne, if_neg h1, if_neg h2, posOf]

/-- decodeLoop single step, emitting case (8 ≤ bits + 6). -/
theorem decodeLoop_step_high (c : Char) (rest : List Char) (buf bits : Nat) (out : List Nat)
    (hne : c ≠ '=') (hp : posOf c < 64) (hb : 2 ≤ bits) :
    decodeLoop (c :: rest) buf bits out =
      decodeLoop rest ((buf * 64 + posOf c) % 4294967296) (bits - 2)
        (out ++ [(buf * 64 + posOf c) % 4294967296 / 2 ^ (bits - 2) % 256]) := by
  have h1 : ¬ (64 ≤ base64_std_chars.findIdx (fun x => x == c)) := by
    simpa [posOf] using hp
  have h2 : 8 ≤ bits + 6 := by omega
  have h3 : bits + 6 - 8 = bits - 2 := by omega
  simp only [decodeLoop, if_neg hne, if_neg h1, if_pos h2, posOf, h3]

/-- decodeLoop consumes one aligned group of four good characters. -/
theorem decodeLoop_chunk (c0 c1 c2 c3 : Char) (rest : List Char) (buf : Nat) (out : List Nat)
    (h0 : posOf c0 < 64) (h1 : posOf c1 < 64) (h2 : posOf c2 < 64) (h3 : posOf c3 < 64)
    (n0 : c0 ≠ '=') (n1 : c1 ≠ '=') (n2 : c2 ≠ '=') (n3 : c3 ≠ '=') :
    ∃ buf2, decodeLoop (c0 :: c1 :: c2 :: c3 :: rest) buf 0 out =
      decodeLoop rest buf2 0 (out ++ decChunk (posOf c0) (posOf c1) (posOf c2) (posOf c3)) := by
  rw [decodeLoop_step_low c0 _ _ _ _ n0 h0 (by omega),
    decodeLoop_step_high c1 _ _ _ _ n1 h1 (by omega),
    decodeLoop_step_high c2 _ _ _ _ n2 h2 (by omega),
    decodeLoop_step_high c3 _ _ _ _ n3 h3 (by omega)]
  have E0 : ((buf * 64 + posOf c0) % 4294967296 * 64 + posOf c1) % 4294967296
      / 2 ^ (0 + 6 - 2) % 256 = posOf c0 * 4 + posOf c1 / 16 := by
    norm_num
    omega
  have E1 : (((buf * 64 + posOf c0) % 4294967296 * 64 + posOf c1) % 4294967296 * 64 + posOf c2)
      % 4294967296 / 2 ^ (0 + 6 - 2 - 2) % 256 = posOf c1 % 16 * 16 + posOf c2 / 4 := by
    norm_num
    omega
  have E2 : ((((buf * 64 + posOf c0) % 4294967296 * 64 + posOf c1) % 4294967296 * 64 + posOf c2)
      % 4294967296 * 64 + posOf c3) % 4294967296 / 2 ^ (0 + 6 - 2 - 2 - 2) % 256 =
      posOf c2 % 4 * 64 + posOf c3 := by
    norm_num
    omega
  rw [E0, E1, E2]
  exact ⟨((((buf * 64 + posOf c0) % 4294967296 * 64 + posOf c1) % 4294967296 * 64 + posOf c2)
    % 4294967296 * 64 + posOf c3) % 4294967296, by simp [decChunk]⟩

/-- decodeLoop on a 4-aligned input of good characters succeeds and produces
the chunk-wise bytes. -/
theorem decodeLoop_chunks : ∀ (l : List Char), l.length % 4 = 0 →
    (∀ c ∈ l, posOf c < 64 ∧ c ≠ '=') → ∀ (buf : Nat) (out : List Nat),
    decodeLoop l buf 0 out = .ok (out ++ decChunks l)
  | [], _, _, buf, out => by simp [decodeLoop, decChunks]
  | [c0], h, _, buf, out => by simp at h
  | [c0, c1], h, _, buf, out => by simp at h
  | [c0, c1, c2], h, _, buf, out => by simp at h
  | c0 :: c1 :: c2 :: c3 :: rest, h, hg, buf, out => by
    have g0 := hg c0 (by simp)
    have g1 := hg c1 (by simp)
    have g2 := hg c2 (by simp)
    have g3 := hg c3 (by simp)
    obtain ⟨buf2, hb⟩ := decodeLoop_chunk c0 c1 c2 c3 rest buf out
      g0.1 g1.1 g2.1 g3.1 g0.2 g1.2 g2.2 g3.2
    rw [hb, decodeLoop_chunks rest (by simp at h; omega) (fun c hc => hg c (by simp [hc])) buf2]
    simp [decChunks]

/-- Length of the chunk-wise decoded bytes. -/
theorem decChunks_length : ∀ (l : List Char), l.length % 4 = 0 →
    (decChunks l).length = l.length / 4 * 3
  | [], _ => by simp [decChunks]
  | [c0], h => by simp at h
  | [c0, c1], h => by simp at h
  | [c0, c1, c2], h => by simp at h
  | c0 :: c1 :: c2 :: c3 :: rest, h => by
    have := decChunks_length rest (by simp at h; omega)
    simp [decChunks, decChunk, this]
    omega

/-- The two replacement maps of `DecodeFromChars` compose to `replChar`. -/
theorem map_map_replChar (l : List Char) :
    (l.map (fun c => if c = '-' then '+' else c)).map (fun c => if c = '_' then '/' else c) =
      l.map replChar := by
  rw [List.map_map]
  refine List.map_congr_left (fun c hc => ?_)
  by_cases h1 : c = '-'
  · simp [h1, replChar]
  · by_cases h2 : c = '_' <;> simp [h1, h2, replChar]

/-- Valid Base64-URL characters have code points below 128. -/
theorem valid_char_toNat_lt (c : Char) (h : IsValidBase64UrlCharacter c = true) :
    c.toNat < 128 := by
  simp only [IsValidBase64UrlCharacter, decide_eq_true_eq] at h
  rcases h with ⟨h1, h2⟩ | ⟨h1, h2⟩ | ⟨h1, h2⟩ | h | h
  · exact Nat.lt_of_le_of_lt h2 (by decide)
  · exact Nat.lt_of_le_of_lt h2 (by decide)
  · exact Nat.lt_of_le_of_lt h2 (by decide)
  · subst h; decide
  · subst h; decide

set_option maxRecDepth 4096 in
/-- Characters with code below 128 satisfying the URL-alphabet test map
under `replChar` to standard-alphabet characters (checked by evaluation). -/
theorem valid_code_good : ∀ n, n < 128 →
    IsValidBase64UrlCharacter (Char.ofNat n) = true →
    posOf (replChar (Char.ofNat n)) < 64 ∧ replChar (Char.ofNat n) ≠ '=' := by decide

/-- A valid Base64-URL character decodes to a standard-alphabet position. -/
theorem valid_char_good (c : Char) (h : IsValidBase64UrlCharacter c = true) :
    posOf (replChar c) < 64 ∧ replChar c ≠ '=' := by
  have hc := valid_char_toNat_lt c h
  have := valid_code_good c.toNat hc
  rw [Char.ofNat_toNat] at this
  exact this h

/-- `getD` of a list with no `'='` entries is not `'='`. -/
theorem getD_ne_eq (l : List Char) (i : Nat) (h : ∀ c ∈ l, c ≠ '=') :
    l.getD i 'A' ≠ '=' := by
  rcases Nat.lt_or_ge i l.length with hi | hi
  · rw [List.getD_eq_getElem l 'A' hi]
    exact h _ (List.getElem_mem hi)
  · rw [List.getD_eq_default]
    · decide
    · exact hi

/-- `DecodeFromChars` on a 4-aligned input of valid Base64-URL characters,
with a large enough destination, succeeds with the chunk-wise bytes. -/
theorem decodeFromChars_valid (l : List Char) (d : Nat)
    (h4 : l.length % 4 = 0)
    (hv : ∀ c ∈ l, IsValidBase64UrlCharacter c = true)
    (hd : l.length / 4 * 3 ≤ d) :
    DecodeFromChars l d = .ok (decChunks (l.map replChar), l.length / 4 * 3) := by
  have hgood : ∀ c ∈ l.map replChar, posOf c < 64 ∧ c ≠ '=' := by
    intro c hc
    obtain ⟨a, ha, rfl⟩ := List.mem_map.mp hc
    exact valid_char_good a (hv a ha)
  have hlen : (l.map replChar).length = l.length := List.length_map l replChar
  have hpad : (4 - l.length % 4) % 4 = 0 := by omega
  rw [DecodeFromChars, map_map_replChar, hlen, hpad]
  simp only [List.replicate_zero, List.append_nil]
  have hne : ∀ c ∈ l.map replChar, c ≠ '=' := fun c hc => (hgood c hc).2
  have g1 : (l.map replChar).getD (l.length - 1) 'A' ≠ '=' := getD_ne_eq _ _ hne
  have g2 : (l.map replChar).getD (l.length - 2) 'A' ≠ '=' := getD_ne_eq _ _ hne
  simp only [DecodeBase64, hlen]
  rw [if_neg (by omega : ¬ (l.length % 4 ≠ 0)), if_neg g1, if_neg g2,
    if_neg (by omega : ¬ (d < l.length / 4 * 3))]
  rw [decodeLoop_chunks (l.map replChar) (by omega) hgood 0 []]
  rw [exceptMap_ok]
  simp only [List.nil_append]
  rw [decChunks_length (l.map replChar) (by omega)]
  rw [hlen]

/-- `encodeStep` from `valb = -6`: accumulate a byte, emit one character. -/
theorem encodeStep_m6 (val : Nat) (acc : List Char) (b : Nat) :
    encodeStep (val, -6, acc) b = ((val * 256 + b) % 4294967296, -4,
      acc ++ [base64_chars.getD ((val * 256 + b) % 4294967296 / 4 % 64) 'A']) := by
  norm_num [encodeStep, pushLoop, show Int.toNat 2 = 2 from rfl, show Int.toNat 4 = 4 from rfl, show Int.toNat 6 = 6 from rfl]

/-- `encodeStep` from `valb = -4`: accumulate a byte, emit one character. -/
theorem encodeStep_m4 (val : Nat) (acc : List Char) (b : Nat) :
    encodeStep (val, -4, acc) b = ((val * 256 + b) % 4294967296, -2,
      acc ++ [base64_chars.getD ((val * 256 + b) % 4294967296 / 16 % 64) 'A']) := by
  norm_num [encodeStep, pushLoop, show Int.toNat 2 = 2 from rfl, show Int.toNat 4 = 4 from rfl, show Int.toNat 6 = 6 from rfl]

/-- `encodeStep` from `valb = -2`: accumulate a byte, emit two characters. -/
theorem encodeStep_m2 (val : Nat) (acc : List Char) (b : Nat) :
    encodeStep (val, -2, acc) b = ((val * 256 + b) % 4294967296, -6,
      acc ++ [base64_chars.getD ((val * 256 + b) % 4294967296 / 64 % 64) 'A',
        base64_chars.getD ((val * 256 + b) % 4294967296 % 64) 'A']) := by
  norm_num [encodeStep, pushLoop, show Int.toNat 2 = 2 from rfl, show Int.toNat 4 = 4 from rfl, show Int.toNat 6 = 6 from rfl]

/-- One group of three bytes through the encoder fold. -/
theorem foldl_encodeStep_chunk (b0 b1 b2 : Nat) (rest : List Nat) (val : Nat) (acc : List Char)
    (h0 : b0 < 256) (h1 : b1 < 256) (h2 : b2 < 256) :
    ∃ v, List.foldl encodeStep (val, -6, acc) (b0 :: b1 :: b2 :: rest) =
      List.foldl encodeStep (v, -6, acc ++
        [base64_chars.getD (b0 / 4) 'A', base64_chars.getD (b0 % 4 * 16 + b1 / 16) 'A',
         base64_chars.getD (b1 % 16 * 4 + b2 / 64) 'A', base64_chars.getD (b2 % 64) 'A']) rest := by
  rw [List.foldl_cons, encodeStep_m6, List.foldl_cons, encodeStep_m4, List.foldl_cons,
    encodeStep_m2]
  have E0 : (val * 256 + b0) % 4294967296 / 4 % 64 = b0 / 4 := by omega
  have E1 : ((val * 256 + b0) % 4294967296 * 256 + b1) % 4294967296 / 16 % 64 =
      b0 % 4 * 16 + b1 / 16 := by omega
  have E2 : (((val * 256 + b0) % 4294967296 * 256 + b1) % 4294967296 * 256 + b2) % 4294967296
      / 64 % 64 = b1 % 16 * 4 + b2 / 64 := by omega
  have E3 : (((val * 256 + b0) % 4294967296 * 256 + b1) % 4294967296 * 256 + b2) % 4294967296
      % 64 = b2 % 64 := by omega
  rw [E0, E1, E2, E3]
  exact ⟨(((val * 256 + b0) % 4294967296 * 256 + b1) % 4294967296 * 256 + b2) % 4294967296,
    by simp⟩

/-- The encoder fold on a 3-aligned byte list of bytes below 256 ends with
`valb = -6` and appends exactly the chunk-wise characters. -/
theorem foldl_encode_chunks : ∀ (bytes : List Nat), (∀ b ∈ bytes, b < 256) →
    bytes.length % 3 = 0 → ∀ (val : Nat) (acc : List Char),
    ∃ v, List.foldl encodeStep (val, -6, acc) bytes = (v, -6, acc ++ encChunks bytes)
  | [], _, _, val, acc => ⟨val, by simp [encChunks]⟩
  | [b0], _, h3, val, acc => by simp at h3
  | [b0, b1], _, h3, val, acc => by simp at h3
  | b0 :: b1 :: b2 :: rest, hb, h3, val, acc => by
    obtain ⟨v1, hv1⟩ := foldl_encodeStep_chunk b0 b1 b2 rest val acc
      (hb b0 (by simp)) (hb b1 (by simp)) (hb b2 (by simp))
    obtain ⟨v, hv⟩ := foldl_encode_chunks rest (fun b hbm => hb b (by simp [hbm]))
      (by simp at h3; omega) v1
      (acc ++ [base64_chars.getD (b0 / 4) 'A', base64_chars.getD (b0 % 4 * 16 + b1 / 16) 'A',
         base64_chars.getD (b1 % 16 * 4 + b2 / 64) 'A', base64_chars.getD (b2 % 64) 'A'])
    exact ⟨v, by rw [hv1, hv]; simp [encChunks]⟩

/-- Length of the chunk-wise encoded characters. -/
theorem encChunks_length : ∀ (bytes : List Nat), bytes.length % 3 = 0 →
    (encChunks bytes).length = bytes.length / 3 * 4
  | [], _ => by simp [encChunks]
  | [b0], h3 => by simp at h3
  | [b0, b1], h3 => by simp at h3
  | b0 :: b1 :: b2 :: rest, h3 => by
    have := encChunks_length rest (by simp at h3; omega)
    simp [encChunks, this]
    omega

/-- Every chunk-wise encoded character is in the URL-safe alphabet. -/
theorem encChunks_mem : ∀ (bytes : List Nat), (∀ b ∈ bytes, b < 256) →
    ∀ c ∈ encChunks bytes, c ∈ base64_chars
  | [], _ => by simp [encChunks]
  | [b0], _ => by simp [encChunks]
  | [b0, b1], _ => by simp [encChunks]
  | b0 :: b1 :: b2 :: rest, hb => by
    have ih := encChunks_mem rest (fun b hbm => hb b (by simp [hbm]))
    have gmem : ∀ i, i < 64 → base64_chars.getD i 'A' ∈ base64_chars := by
      intro i hi
      rw [List.getD_eq_getElem _ _ (by simpa using hi)]
      exact List.getElem_mem _
    intro c hc
    have hb0 := hb b0 (by simp)
    have hb1 := hb b1 (by simp)
    have hb2 := hb b2 (by simp)
    simp only [encChunks, List.mem_cons] at hc
    rcases hc with rfl | rfl | rfl | rfl | hc
    · exact gmem _ (by omega)
    · exact gmem _ (by omega)
    · exact gmem _ (by omega)
    · exact gmem _ (by omega)
    · exact ih c hc

/-- Characters of the URL-safe alphabet pass the validator test (checked by
evaluation). -/
theorem base64_chars_valid : ∀ c ∈ base64_chars, IsValidBase64UrlCharacter c = true := by decide

/-- `Base64UrlEncode` on a 3-aligned byte list equals the chunk-wise
characters: no partial group is flushed, no padding is appended, and the
replacement / erasure passes are no-ops. -/
theorem base64UrlEncode_eq_encChunks (bytes : List Nat) (hb : ∀ b ∈ bytes, b < 256)
    (h3 : bytes.length % 3 = 0) : Base64UrlEncode bytes = encChunks bytes := by
  obtain ⟨v, hv⟩ := foldl_encode_chunks bytes hb h3 0 []
  have hmem : ∀ c ∈ encChunks bytes, c ∈ base64_chars := encChunks_mem bytes hb
  have hlen : (encChunks bytes).length = bytes.length / 3 * 4 := encChunks_length bytes h3
  rw [Base64UrlEncode, hv]
  simp only [List.nil_append]
  rw [if_neg (by norm_num : ¬ ((-6 : Int) > -6))]
  have hpad : (4 - (encChunks bytes).length % 4) % 4 = 0 := by omega
  rw [hpad]
  simp only [List.replicate_zero, List.append_nil]
  have hplus : ∀ c ∈ encChunks bytes, c ≠ '+' := by
    intro c hc he
    subst he
    exact absurd (hmem _ hc) (by decide)
  have hslash : ∀ c ∈ encChunks bytes, c ≠ '/' := by
    intro c hc he
    subst he
    exact absurd (hmem _ hc) (by decide)
  have heq : ∀ c ∈ encChunks bytes, c ≠ '=' := by
    intro c hc he
    subst he
    exact absurd (hmem _ hc) (by decide)
  rw [List.map_congr_left (fun c hc => if_neg (hplus c hc)), List.map_id']
  rw [List.map_congr_left (fun c hc => if_neg (hslash c hc)), List.map_id']
  exact List.filter_eq_self.mpr (fun c hc => by simpa using heq c hc)

set_option maxRecDepth 8192 in
/-- Replacing and position-indexing inverts the URL-alphabet lookup
(checked by evaluation over all 64 indices). -/
theorem posOf_replChar_urlChar : ∀ i, i < 64 →
    posOf (replChar (base64_chars.getD i 'A')) = i := by decide

/-- Chunk-wise decoding inverts chunk-wise encoding. -/
theorem decChunks_encChunks : ∀ (bytes : List Nat), (∀ b ∈ bytes, b < 256) →
    bytes.length % 3 = 0 → decChunks ((encChunks bytes).map replChar) = bytes
  | [], _, _ => by simp [encChunks, decChunks]
  | [b0], _, h3 => by simp at h3
  | [b0, b1], _, h3 => by simp at h3
  | b0 :: b1 :: b2 :: rest, hb, h3 => by
    have hb0 := hb b0 (by simp)
    have hb1 := hb b1 (by simp)
    have hb2 := hb b2 (by simp)
    have ih := decChunks_encChunks rest (fun b hbm => hb b (by simp [hbm]))
      (by simp at h3; omega)
    have q0 : posOf (replChar (base64_chars.getD (b0 / 4) 'A')) = b0 / 4 :=
      posOf_replChar_urlChar _ (by omega)
    have q1 : posOf (replChar (base64_chars.getD (b0 % 4 * 16 + b1 / 16) 'A')) =
        b0 % 4 * 16 + b1 / 16 := posOf_replChar_urlChar _ (by omega)
    have q2 : posOf (replChar (base64_chars.getD (b1 % 16 * 4 + b2 / 64) 'A')) =
        b1 % 16 * 4 + b2 / 64 := posOf_replChar_urlChar _ (by omega)
    have q3 : posOf (replChar (base64_chars.getD (b2 % 64) 'A')) = b2 % 64 :=
      posOf_replChar_urlChar _ (by omega)
    show decChunks (replChar (base64_chars.getD (b0 / 4) 'A') ::
      replChar (base64_chars.getD (b0 % 4 * 16 + b1 / 16) 'A') ::
      replChar (base64_chars.getD (b1 % 16 * 4 + b2 / 64) 'A') ::
      replChar (base64_chars.getD (b2 % 64) 'A') :: (encChunks rest).map replChar) = _
    rw [decChunks, q0, q1, q2, q3, ih]
    have e0 : b0 / 4 * 4 + (b0 % 4 * 16 + b1 / 16) / 16 = b0 := by omega
    have e1 : (b0 % 4 * 16 + b1 / 16) % 16 * 16 + (b1 % 16 * 4 + b2 / 64) / 4 = b1 := by omega
    have e2 : (b1 % 16 * 4 + b2 / 64) % 4 * 64 + b2 % 64 = b2 := by omega
    simp [decChunk, e0, e1, e2]

/-- C6: for every byte buffer whose length is a multiple of 3,
`Base64Url::DecodeFromChars` applied to `Base64UrlEncode(b)` (with a
destination of the size of `b`) yields exactly `b` and reports the length of
`b` as bytes written. -/
theorem base64_encode_decode_roundtrip (b : List Nat) (hb : ∀ x ∈ b, x < 256)
    (h3 : b.length % 3 = 0) :
    DecodeFromChars (Base64UrlEncode b) b.length = .ok (b, b.length) := by
  rw [base64UrlEncode_eq_encChunks b hb h3]
  have h4 : (encChunks b).length % 4 = 0 := by rw [encChunks_length b h3]; omega
  have hv : ∀ c ∈ encChunks b, IsValidBase64UrlCharacter c = true :=
    fun c hc => base64_chars_valid c (encChunks_mem b hb c hc)
  have hlen : (encChunks b).length / 4 * 3 = b.length := by
    rw [encChunks_length b h3]; omega
  rw [decodeFromChars_valid (encChunks b) b.length h4 hv (by omega)]
  rw [decChunks_encChunks b hb h3, hlen]

/-- If some character strictly before the first `'='` is outside the
standard alphabet, the decode loop throws the invalid-character error. -/
theorem decodeLoop_error_of_bad : ∀ (l : List Char) (buf bits : Nat) (out : List Nat),
    ((l.takeWhile (fun c => c != '=')).any (fun c => 64 ≤ posOf c)) = true →
    decodeLoop l buf bits out = .error (.invalidArgument ("Invalid Base64 character."))
  | [], _, _, _, h => by simp at h
  | c :: rest, buf, bits, out, h => by
    by_cases he : c = '='
    · rw [List.takeWhile_cons_of_neg (by simp [he])] at h
      simp at h
    · rw [List.takeWhile_cons_of_pos (by simp [he])] at h
      simp only [List.any_cons, Bool.or_eq_true] at h
      by_cases hp : 64 ≤ posOf c
      · rw [decodeLoop, if_neg he, if_pos (by simpa [posOf] using hp)]
      · have h2 : ((rest.takeWhile (fun c => c != '=')).any (fun c => 64 ≤ posOf c)) = true := by
          rcases h with h | h
          · exact absurd (by simpa using h) hp
          · exact h
        rw [decodeLoop, if_neg he, if_neg (by simpa [posOf] using hp)]
        dsimp only
        split
        · exact decodeLoop_error_of_bad rest _ _ _ h2
        · exact decodeLoop_error_of_bad rest _ _ _ h2

/-- `takeWhile (· != '=')` ignores appended `'='` padding. -/
theorem takeWhile_append_eq_pad : ∀ (l : List Char) (k : Nat),
    (l ++ List.replicate k '=').takeWhile (fun c => c != '=') =
      l.takeWhile (fun c => c != '=')
  | [], 0 => by simp
  | [], k + 1 => by simp [List.replicate_succ]
  | c :: l, k => by
    by_cases he : c = '='
    · simp only [List.cons_append]
      rw [List.takeWhile_cons_of_neg (by simp [he]), List.takeWhile_cons_of_neg (by simp [he])]
    · simp only [List.cons_append]
      rw [List.takeWhile_cons_of_pos (by simp [he]), List.takeWhile_cons_of_pos (by simp [he]),
        takeWhile_append_eq_pad l k]

/-- `replChar` maps exactly `'='` to `'='`. -/
theorem replChar_eq_iff (c : Char) : (replChar c = '=') ↔ (c = '=') := by
  unfold replChar
  by_cases h1 : c = '-' <;> by_cases h2 : c = '_' <;> simp [h1, h2]

/-- C7 (amended): for every input char sequence in which some character
outside the Base64-URL alphabet extended with `'+'`, `'/'` and `'='` occurs
strictly before the first `'='` (formally: the standard-alphabet position of
its `replChar` image is 64 = not-found), and a destination large enough for
the padded input, `Base64Url::DecodeFromChars` fails with the
invalid-character error.  (`'+'` and `'/'` are accepted as aliases of `'-'`
and `'_'`, and characters at or after the first `'='` are never examined —
see the counterexample `decodeFromChars_accepts_plus`.) -/
theorem decodeFromChars_rejects_nonalphabet (source : List Char) (destSize : Nat)
    (hbad : (source.takeWhile (fun c => c != '=')).any
      (fun c => 64 ≤ posOf (replChar c)) = true)
    (hd : (source.length + 3) / 4 * 3 ≤ destSize) :
    DecodeFromChars source destSize = .error (.invalidArgument ("Invalid Base64 character.")) := by
  rw [DecodeFromChars, map_map_replChar]
  have hlen : (source.map replChar).length = source.length := List.length_map source replChar
  rw [hlen, DecodeBase64]
  have hlen2 : (source.map replChar ++
      List.replicate ((4 - source.length % 4) % 4) '=').length =
      source.length + (4 - source.length % 4) % 4 := by
    simp [hlen]
  rw [hlen2]
  rw [if_neg (by omega : ¬ (source.length + (4 - source.length % 4) % 4) % 4 ≠ 0)]
  have hloop : decodeLoop (source.map replChar ++
      List.replicate ((4 - source.length % 4) % 4) '=') 0 0 [] =
      .error (.invalidArgument ("Invalid Base64 character.")) := by
    apply decodeLoop_error_of_bad
    rw [takeWhile_append_eq_pad, List.takeWhile_map]
    have hpred : ((fun c => c != '=') ∘ replChar) = (fun c => c != '=') := by
      funext c
      refine Bool.eq_iff_iff.mpr ?_
      simp [Function.comp, bne_iff_ne, replChar_eq_iff]
    rw [hpred, List.any_map]
    exact hbad
  dsimp only
  split
  · split
    · rw [if_neg (by omega), hloop, exceptMap_error]
    · rw [if_neg (by omega), hloop, exceptMap_error]
  · split
    · rw [if_neg (by omega), hloop, exceptMap_error]
    · rw [if_neg (by omega), hloop, exceptMap_error]

/-- Constants evaluate to the spec values. -/
theorem minSecretEntropy_eq : MinSecretEntropyInBytes = 18 := by decide

theorem maxSecretEntropy_eq : MaxSecretEntropyInBytes = 66 := by decide

theorem maxProviderDataChars_eq : MaxProviderDataLengthInChars = 32 := by decide

/-- An `Except _ Unit` is `ok ()` or an error. -/
theorem except_unit_cases (r : Except CaskError Unit) : r = .ok () ∨ ∃ e, r = .error e := by
  cases r with
  | ok u => cases u; exact Or.inl rfl
  | error e => exact Or.inr ⟨e, rfl⟩

/-- `ValidateProviderSignature` only throws `std::invalid_argument`. -/
theorem validatePS_error_shape (x : Option (List Char)) (e : CaskError)
    (h : ValidateProviderSignature x = .error e) : ∃ m, e = .invalidArgument m := by
  unfold ValidateProviderSignature at h
  cases x with
  | none =>
    dsimp only at h
    cases h
    exact ⟨_, rfl⟩
  | some s =>
    dsimp only at h
    split_ifs at h with h1 h2 <;> cases h
    · exact ⟨_, rfl⟩
    · exact ⟨_, rfl⟩

/-- `ValidateAllocatorCode` only throws `std::invalid_argument`. -/
theorem validateAC_error_shape (x : Option (List Char)) (e : CaskError)
    (h : ValidateAllocatorCode x = .error e) : ∃ m, e = .invalidArgument m := by
  unfold ValidateAllocatorCode at h
  cases x with
  | none =>
    dsimp only at h
    cases h
    exact ⟨_, rfl⟩
  | some s =>
    dsimp only at h
    split_ifs at h with h1 h2 <;> cases h
    · exact ⟨_, rfl⟩
    · exact ⟨_, rfl⟩

/-- `ValidateProviderData` only throws `std::invalid_argument`. -/
theorem validatePD_error_shape (x : Option (List Char)) (e : CaskError)
    (h : ValidateProviderData x = .error e) : ∃ m, e = .invalidArgument m := by
  unfold ValidateProviderData at h
  cases x with
  | none =>
    dsimp only at h
    cases h
    exact ⟨_, rfl⟩
  | some s =>
    dsimp only at h
    split_ifs at h with h1 h2 h3 <;> cases h
    · exact ⟨_, rfl⟩
    · exact ⟨_, rfl⟩
    · exact ⟨_, rfl⟩

/-- `ValidateSecretEntropy` only throws `std::invalid_argument`. -/
theorem validateSE_error_shape (x : Int) (e : CaskError)
    (h : ValidateSecretEntropy x = .error e) : ∃ m, e = .invalidArgument m := by
  unfold ValidateSecretEntropy at h
  split_ifs at h with h1 <;> cases h
  exact ⟨_, rfl⟩

/-- C5 main lemma: if any of the four validators rejects, the key body
computation stops at the first rejecting validator with its
`std::invalid_argument` error. -/
theorem generateKeyBody_error_of_reject (acO psO pdO : Option (List Char))
    (e : Int) (rng : List Nat) (year month : Int)
    (h : ValidateProviderSignature psO ≠ .ok () ∨ ValidateAllocatorCode acO ≠ .ok () ∨
      ValidateProviderData pdO ≠ .ok () ∨
      ValidateSecretEntropy (RoundUpTo3ByteAlignment e) ≠ .ok ()) :
    ∃ m, GenerateKeyBody acO psO pdO e rng year month = .error (.invalidArgument m) := by
  rcases except_unit_cases (ValidateProviderSignature psO) with h1 | ⟨e1, h1⟩
  · rcases except_unit_cases (ValidateAllocatorCode acO) with h2 | ⟨e2, h2⟩
    · rcases except_unit_cases (ValidateProviderData pdO) with h3 | ⟨e3, h3⟩
      · rcases except_unit_cases (ValidateSecretEntropy (RoundUpTo3ByteAlignment e)) with
          h4 | ⟨e4, h4⟩
        · rcases h with hh | hh | hh | hh
          · exact absurd h1 hh
          · exact absurd h2 hh
          · exact absurd h3 hh
          · exact absurd h4 hh
        · obtain ⟨m, rfl⟩ := validateSE_error_shape _ _ h4
          exact ⟨m, by simp [GenerateKeyBody, h1, h2, h3, h4, exceptBind_ok, exceptBind_error]⟩
      · obtain ⟨m, rfl⟩ := validatePD_error_shape _ _ h3
        exact ⟨m, by simp [GenerateKeyBody, h1, h2, h3, exceptBind_ok, exceptBind_error]⟩
    · obtain ⟨m, rfl⟩ := validateAC_error_shape _ _ h2
      exact ⟨m, by simp [GenerateKeyBody, h1, h2, exceptBind_ok, exceptBind_error]⟩
  · obtain ⟨m, rfl⟩ := validatePS_error_shape _ _ h1
    exact ⟨m, by simp [GenerateKeyBody, h1, exceptBind_ok, exceptBind_error]⟩

/-- Inverting a successful `ValidateProviderSignature`. -/
theorem validatePS_ok_elim (s : List Char) (h : ValidateProviderSignature (some s) = .ok ()) :
    s.length = 4 ∧ ∀ c ∈ s, IsValidBase64UrlCharacter c = true := by
  unfold ValidateProviderSignature at h
  dsimp only at h
  split_ifs at h with h1 h2
  refine ⟨by omega, ?_⟩
  simp at h2
  exact List.all_eq_true.mp (by simpa [IsValidForBase64Url] using h2)

/-- Inverting a successful `ValidateAllocatorCode`. -/
theorem validateAC_ok_elim (s : List Char) (h : ValidateAllocatorCode (some s) = .ok ()) :
    s.length = 2 ∧ ∀ c ∈ s, IsValidBase64UrlCharacter c = true := by
  unfold ValidateAllocatorCode at h
  dsimp only at h
  split_ifs at h with h1 h2
  refine ⟨by omega, ?_⟩
  simp at h2
  exact List.all_eq_true.mp (by simpa [IsValidForBase64Url] using h2)

/-- Inverting a successful `ValidateProviderData`. -/
theorem validatePD_ok_elim (s : List Char) (h : ValidateProviderData (some s) = .ok ()) :
    s.length % 4 = 0 ∧ s.length ≤ 32 ∧ ∀ c ∈ s, IsValidBase64UrlCharacter c = true := by
  unfold ValidateProviderData at h
  dsimp only at h
  split_ifs at h with h1 h2 h3
  rw [maxProviderDataChars_eq] at h1
  refine ⟨?_, by omega, ?_⟩
  · simp at h2
    simp only [Is4CharAligned] at h2
    have h2' : (s.length : Int).tmod 4 = 0 := by simpa using h2
    rw [Int.tmod_eq_emod (by omega) (by omega)] at h2'
    omega
  · simp at h3
    exact List.all_eq_true.mp (by simpa [IsValidForBase64Url] using h3)

/-- Inverting a successful `ValidateSecretEntropy`. -/
theorem validateSE_ok_elim (s : Int) (h : ValidateSecretEntropy s = .ok ()) :
    18 ≤ s ∧ s ≤ 66 := by
  unfold ValidateSecretEntropy at h
  rw [minSecretEntropy_eq, maxSecretEntropy_eq] at h
  split_ifs at h with h1
  omega

/-- Rounded-up sizes are 3-byte aligned. -/
theorem roundUp3_aligned (x : Int) : Is3ByteAligned (RoundUpTo3ByteAlignment x) = true := by
  simp [Is3ByteAligned, RoundUpTo3ByteAlignment, RoundUpToMultipleOf, Int.mul_tmod_left]

/-- `Base64CharsToBytes` on a 4-aligned count is exact. -/
theorem base64CharsToBytes_aligned (n : Nat) (h : n % 4 = 0) :
    Base64CharsToBytes (n : Int) = ((n / 4 * 3 : Nat) : Int) := by
  unfold Base64CharsToBytes RoundUpTo4CharAlignment RoundUpToMultipleOf
  have e1 : ((n : Int) + 4 - 1).tdiv 4 = ((n : Int) + 4 - 1) / 4 :=
    Int.tdiv_eq_ediv (by omega) (by omega)
  rw [e1]
  have h0 : (0 : Int) ≤ ((n : Int) + 4 - 1) / 4 * 4 := by omega
  rw [Int.tdiv_eq_ediv h0 (by omega)]
  omega

/-- A multiple of 3 (as a cast) is 3-byte aligned. -/
theorem is3ByteAligned_cast_mul3 (m : Nat) : Is3ByteAligned ((m * 3 : Nat) : Int) = true := by
  have e : ((m * 3 : Nat) : Int) = (m : Int) * 3 := by push_cast; ring
  simp [Is3ByteAligned, e, Int.mul_tmod_left]

/-- `GetKeyLengthInBytes` succeeds on aligned sizes. -/
theorem getKeyLength_ok (s p : Int) (hs : Is3ByteAligned s = true) (hp : Is3ByteAligned p = true) :
    GetKeyLengthInBytes s p = .ok (s + p + 12) := by
  unfold GetKeyLengthInBytes
  rw [hs, hp]
  norm_num [FixedKeyComponentSizeInBytes]

set_option maxRecDepth 4096 in
/-- Every alphabet character passes the validator test. -/
theorem base64UrlChars_valid : ∀ i, i < 64 →
    IsValidBase64UrlCharacter (Base64UrlChars.getD i 'A') = true := by decide

/-- `FillRandom` returns the injected CSPRNG bytes. -/
theorem fillRandom_ok (n : Nat) (rng : List Nat) (h : n ≠ 0) (hl : rng.length = n) :
    FillRandom n rng = .ok rng := by
  unfold FillRandom
  rw [if_neg h, ← hl, List.take_length]

/-- The success path of `GenerateKeyBody`: with all validators passing, a
CSPRNG stream of exactly the rounded entropy size, and an in-range clock,
the body returns the raw key layout of §3.1. -/
theorem generateKeyBody_success (ac ps pd : List Char) (e : Int) (rng : List Nat)
    (year month : Int)
    (hps : ValidateProviderSignature (some ps) = .ok ())
    (hac : ValidateAllocatorCode (some ac) = .ok ())
    (hpd : ValidateProviderData (some pd) = .ok ())
    (hse : ValidateSecretEntropy (RoundUpTo3ByteAlignment e) = .ok ())
    (hrng : rng.length = (RoundUpTo3ByteAlignment e).toNat)
    (hyl : 2024 ≤ year) (hyu : year ≤ 2087) (hml : 1 ≤ month) (hmu : month ≤ 12) :
    ∃ atsB psB,
      GenerateKeyBody (some ac) (some ps) (some pd) e rng year month =
        .ok (RoundUpTo3ByteAlignment e + Base64CharsToBytes (pd.length : Int) + 12,
          rng ++ decChunks (pd.map replChar) ++ [0x25, 0x04, 0x09] ++ atsB ++ psB ++
            ComputeChecksum (rng ++ decChunks (pd.map replChar) ++ [0x25, 0x04, 0x09] ++
              atsB ++ psB ++ [0, 0, 0])) ∧
      (decChunks (pd.map replChar)).length = pd.length / 4 * 3 ∧
      DecodeFromChars [ac.getD 0 'A', ac.getD 1 'A',
        Base64UrlChars.getD (year - 2024).toNat 'A',
        Base64UrlChars.getD (month - 1).toNat 'A'] 9 = .ok (atsB, 3) ∧
      atsB.length = 3 ∧ psB.length = 3 := by
  obtain ⟨hps4, hpsv⟩ := validatePS_ok_elim ps hps
  obtain ⟨hac2, hacv⟩ := validateAC_ok_elim ac hac
  obtain ⟨hpd4, hpd32, hpdv⟩ := validatePD_ok_elim pd hpd
  obtain ⟨hs18, hs66⟩ := validateSE_ok_elim _ hse
  have hP : Base64CharsToBytes (pd.length : Int) = ((pd.length / 4 * 3 : Nat) : Int) :=
    base64CharsToBytes_aligned pd.length hpd4
  have hkey : GetKeyLengthInBytes (RoundUpTo3ByteAlignment e)
      (Base64CharsToBytes (pd.length : Int)) =
      .ok (RoundUpTo3ByteAlignment e + Base64CharsToBytes (pd.length : Int) + 12) :=
    getKeyLength_ok _ _ (roundUp3_aligned e) (hP ▸ is3ByteAligned_cast_mul3 (pd.length / 4))
  have hfill : FillRandom (RoundUpTo3ByteAlignment e).toNat rng = .ok rng :=
    fillRandom_ok _ rng (by omega) hrng
  have hdest1 : (RoundUpTo3ByteAlignment e + Base64CharsToBytes (pd.length : Int) + 12 -
      RoundUpTo3ByteAlignment e).toNat = pd.length / 4 * 3 + 12 := by
    rw [hP]; omega
  have hdec1 : DecodeFromChars pd (pd.length / 4 * 3 + 12) =
      .ok (decChunks (pd.map replChar), pd.length / 4 * 3) :=
    decodeFromChars_valid pd _ hpd4 hpdv (by omega)
  have hyear : ¬ (year < 2024 ∨ year > 2087) := by omega
  -- the allocator-and-timestamp string
  set yc := Base64UrlChars.getD (year - 2024).toNat 'A' with hyc
  set mc := Base64UrlChars.getD (month - 1).toNat 'A' with hmc
  have hacv0 : IsValidBase64UrlCharacter (ac.getD 0 'A') = true := by
    have : ac.getD 0 'A' ∈ ac := by
      rw [List.getD_eq_getElem _ _ (by omega)]
      exact List.getElem_mem _
    exact hacv _ this
  have hacv1 : IsValidBase64UrlCharacter (ac.getD 1 'A') = true := by
    have : ac.getD 1 'A' ∈ ac := by
      rw [List.getD_eq_getElem _ _ (by omega)]
      exact List.getElem_mem _
    exact hacv _ this
  have hycv : IsValidBase64UrlCharacter yc = true :=
    base64UrlChars_valid _ (by omega)
  have hmcv : IsValidBase64UrlCharacter mc = true :=
    base64UrlChars_valid _ (by omega)
  have hdest2 : (RoundUpTo3ByteAlignment e + Base64CharsToBytes (pd.length : Int) + 12 -
      RoundUpTo3ByteAlignment e - Base64CharsToBytes (pd.length : Int) - 3).toNat = 9 := by
    omega
  have hdec2 : DecodeFromChars [ac.getD 0 'A', ac.getD 1 'A', yc, mc] 9 =
      .ok (decChunks ([ac.getD 0 'A', ac.getD 1 'A', yc, mc].map replChar), 3) := by
    have := decodeFromChars_valid [ac.getD 0 'A', ac.getD 1 'A', yc, mc] 9 (by simp)
      (by
        intro c hc
        simp only [List.mem_cons, List.not_mem_nil, or_false] at hc
        rcases hc with rfl | rfl | rfl | rfl
        · exact hacv0
        · exact hacv1
        · exact hycv
        · exact hmcv) (by simp)
    simpa using this
  have hdest3 : (RoundUpTo3ByteAlignment e + Base64CharsToBytes (pd.length : Int) + 12 -
      RoundUpTo3ByteAlignment e - Base64CharsToBytes (pd.length : Int) - 6).toNat = 6 := by
    omega
  have hdec3 : DecodeFromChars ps 6 =
      .ok (decChunks (ps.map replChar), 3) := by
    have := decodeFromChars_valid ps 6 (by omega) hpsv (by omega)
    rw [this, hps4]
  have hlats : (decChunks ([ac.getD 0 'A', ac.getD 1 'A', yc, mc].map replChar)).length = 3 := by
    rw [decChunks_length _ (by simp), List.length_map]
    simp
  have hlps : (decChunks (ps.map replChar)).length = 3 := by
    rw [decChunks_length _ (by rw [List.length_map]; omega), List.length_map, hps4]
  refine ⟨decChunks ([ac.getD 0 'A', ac.getD 1 'A', yc, mc].map replChar),
    decChunks (ps.map replChar), ?_, ?_, hdec2, hlats, hlps⟩
  · rw [GenerateKeyBody]
    simp only [Option.getD_some, exceptBind_ok, exceptBind_error, hps, hac, hpd, hse, hkey,
      hdest1, hfill, hdec1, hdest2, hdec2, hdest3, hdec3, if_neg hyear]
    rfl
  · rw [decChunks_length _ (by rw [List.length_map]; omega), List.length_map]

/-- The year check of `GenerateKeyBody`: with all validators passing and an
out-of-range clock year, the body throws `std::invalid_argument` with the
year message. -/
theorem generateKeyBody_year_out (ac ps pd : List Char) (e : Int) (rng : List Nat)
    (year month : Int)
    (hps : ValidateProviderSignature (some ps) = .ok ())
    (hac : ValidateAllocatorCode (some ac) = .ok ())
    (hpd : ValidateProviderData (some pd) = .ok ())
    (hse : ValidateSecretEntropy (RoundUpTo3ByteAlignment e) = .ok ())
    (hrng : rng.length = (RoundUpTo3ByteAlignment e).toNat)
    (hyear : year < 2024 ∨ year > 2087) :
    GenerateKeyBody (some ac) (some ps) (some pd) e rng year month =
      .error (.invalidArgument ("CASK requires the current year to be between 2024 and 2087.")) := by
  obtain ⟨hpd4, hpd32, hpdv⟩ := validatePD_ok_elim pd hpd
  obtain ⟨hs18, hs66⟩ := validateSE_ok_elim _ hse
  have hP : Base64CharsToBytes (pd.length : Int) = ((pd.length / 4 * 3 : Nat) : Int) :=
    base64CharsToBytes_aligned pd.length hpd4
  have hkey : GetKeyLengthInBytes (RoundUpTo3ByteAlignment e)
      (Base64CharsToBytes (pd.length : Int)) =
      .ok (RoundUpTo3ByteAlignment e + Base64CharsToBytes (pd.length : Int) + 12) :=
    getKeyLength_ok _ _ (roundUp3_aligned e) (hP ▸ is3ByteAligned_cast_mul3 (pd.length / 4))
  have hfill : FillRandom (RoundUpTo3ByteAlignment e).toNat rng = .ok rng :=
    fillRandom_ok _ rng (by omega) hrng
  have hdest1 : (RoundUpTo3ByteAlignment e + Base64CharsToBytes (pd.length : Int) + 12 -
      RoundUpTo3ByteAlignment e).toNat = pd.length / 4 * 3 + 12 := by
    rw [hP]; omega
  have hdec1 : DecodeFromChars pd (pd.length / 4 * 3 + 12) =
      .ok (decChunks (pd.map replChar), pd.length / 4 * 3) :=
    decodeFromChars_valid pd _ hpd4 hpdv (by omega)
  rw [GenerateKeyBody]
  simp only [Option.getD_some, exceptBind_ok, exceptBind_error, hps, hac, hpd, hse, hkey,
    hdest1, hfill, hdec1, if_pos hyear]

/-- C5: whenever any of the four validators rejects an input (null pointer,
wrong length, non-alphabet character, provider data over 32 chars or not
4-char aligned, entropy outside [18, 66] after round-up),
`Cask_GenerateKey` fails with an `std::invalid_argument` error and the
caller-owned output buffer is left completely unchanged. -/
theorem generateKey_reject_invalidArgument_untouched
    (acO psO pdO : Option (List Char)) (e outSize : Int) (out0 rng : List Nat)
    (year month : Int)
    (h : ValidateProviderSignature psO ≠ .ok () ∨ ValidateAllocatorCode acO ≠ .ok () ∨
      ValidateProviderData pdO ≠ .ok () ∨
      ValidateSecretEntropy (RoundUpTo3ByteAlignment e) ≠ .ok ()) :
    ∃ m, (Cask_GenerateKey acO psO pdO e outSize out0 rng year month).1 =
        .error (.invalidArgument m) ∧
      (Cask_GenerateKey acO psO pdO e outSize out0 rng year month).2 = out0 := by
  obtain ⟨m, hm⟩ := generateKeyBody_error_of_reject acO psO pdO e rng year month h
  exact ⟨m, by simp [Cask_GenerateKey, hm], by simp [Cask_GenerateKey, hm]⟩

/-- C8: every raw key buffer assembled by a successful `Cask_GenerateKey`
call carries the sentinel bytes `0x25 0x04 0x09` exactly at byte offsets
`[S+P, S+P+3)`, where `S` is the rounded-up entropy size and `P` the decoded
provider-data size — i.e. at raw offset `L - 12` of the raw length
`L = S + P + 12` the call returns. -/
theorem generateKey_sentinel_at_offset (ac ps pd : List Char) (e outSize : Int)
    (out0 rng : List Nat) (year month : Int)
    (hps : ValidateProviderSignature (some ps) = .ok ())
    (hac : ValidateAllocatorCode (some ac) = .ok ())
    (hpd : ValidateProviderData (some pd) = .ok ())
    (hse : ValidateSecretEntropy (RoundUpTo3ByteAlignment e) = .ok ())
    (hrng : rng.length = (RoundUpTo3ByteAlignment e).toNat)
    (hyl : 2024 ≤ year) (hyu : year ≤ 2087) (hml : 1 ≤ month) (hmu : month ≤ 12) :
    (Cask_GenerateKey (some ac) (some ps) (some pd) e outSize out0 rng year month).1 =
      .ok (RoundUpTo3ByteAlignment e + Base64CharsToBytes (pd.length : Int) + 12) ∧
    (((Cask_GenerateKey (some ac) (some ps) (some pd) e outSize out0 rng year month).2).drop
        ((RoundUpTo3ByteAlignment e).toNat +
          (Base64CharsToBytes (pd.length : Int)).toNat)).take 3 = [0x25, 0x04, 0x09] := by
  obtain ⟨atsB, psB, hbody, hlpd, hdecats, hlats, hlps⟩ :=
    generateKeyBody_success ac ps pd e rng year month hps hac hpd hse hrng hyl hyu hml hmu
  obtain ⟨hpd4, hpd32, hpdv⟩ := validatePD_ok_elim pd hpd
  have hP : Base64CharsToBytes (pd.length : Int) = ((pd.length / 4 * 3 : Nat) : Int) :=
    base64CharsToBytes_aligned pd.length hpd4
  have hPtoNat : (Base64CharsToBytes (pd.length : Int)).toNat = pd.length / 4 * 3 := by
    rw [hP]; omega
  constructor
  · simp [Cask_GenerateKey, hbody]
  · rw [Cask_GenerateKey, hbody]
    simp only [List.append_assoc]
    rw [hPtoNat, ← hrng, ← hlpd, List.drop_append, List.drop_left]
    simp

/-- C9 (amended): `Cask_GenerateKey` fails — throwing `std::invalid_argument`
with the year message, the same exception type used for validation failures
rather than a distinct `TimestampOutOfRange` kind — exactly when the clock
year lies outside `[2024, 2087]` (first conjunct, both directions: the
second conjunct shows an in-range year yields no error); and when the year
is in range, the bytes at `[S+P+3, S+P+6)` of the raw key are the Base64-URL
decoding of `allocator[0], allocator[1], alphabet[year - 2024],
alphabet[month - 1]`. -/
theorem generateKey_timestamp_amended (ac ps pd : List Char) (e outSize : Int)
    (out0 rng : List Nat) (year month : Int)
    (hps : ValidateProviderSignature (some ps) = .ok ())
    (hac : ValidateAllocatorCode (some ac) = .ok ())
    (hpd : ValidateProviderData (some pd) = .ok ())
    (hse : ValidateSecretEntropy (RoundUpTo3ByteAlignment e) = .ok ())
    (hrng : rng.length = (RoundUpTo3ByteAlignment e).toNat)
    (hml : 1 ≤ month) (hmu : month ≤ 12) :
    ((year < 2024 ∨ year > 2087) →
      (Cask_GenerateKey (some ac) (some ps) (some pd) e outSize out0 rng year month).1 =
        .error (.invalidArgument
          ("CASK requires the current year to be between 2024 and 2087.")) ∧
      (Cask_GenerateKey (some ac) (some ps) (some pd) e outSize out0 rng year month).2 =
        out0) ∧
    (2024 ≤ year → year ≤ 2087 →
      ∃ atsB, DecodeFromChars [ac.getD 0 'A', ac.getD 1 'A',
          Base64UrlChars.getD (year - 2024).toNat 'A',
          Base64UrlChars.getD (month - 1).toNat 'A'] 9 = .ok (atsB, 3) ∧
        (((Cask_GenerateKey (some ac) (some ps) (some pd) e outSize out0 rng year month).2).drop
            ((RoundUpTo3ByteAlignment e).toNat +
              (Base64CharsToBytes (pd.length : Int)).toNat + 3)).take 3 = atsB) := by
  constructor
  · intro hyear
    have hbody := generateKeyBody_year_out ac ps pd e rng year month hps hac hpd hse hrng hyear
    exact ⟨by simp [Cask_GenerateKey, hbody], by simp [Cask_GenerateKey, hbody]⟩
  · intro hyl hyu
    obtain ⟨atsB, psB, hbody, hlpd, hdecats, hlats, hlps⟩ :=
      generateKeyBody_success ac ps pd e rng year month hps hac hpd hse hrng hyl hyu hml hmu
    obtain ⟨hpd4, hpd32, hpdv⟩ := validatePD_ok_elim pd hpd
    have hP : Base64CharsToBytes (pd.length : Int) = ((pd.length / 4 * 3 : Nat) : Int) :=
      base64CharsToBytes_aligned pd.length hpd4
    have hPtoNat : (Base64CharsToBytes (pd.length : Int)).toNat = pd.length / 4 * 3 := by
      rw [hP]; omega
    refine ⟨atsB, hdecats, ?_⟩
    rw [Cask_GenerateKey, hbody]
    simp only [List.append_assoc]
    have harr : (RoundUpTo3ByteAlignment e).toNat +
        (Base64CharsToBytes (pd.length : Int)).toNat + 3 =
        rng.length + ((decChunks (pd.map replChar)).length + 3) := by
      rw [hPtoNat, ← hrng, ← hlpd]
      omega
    rw [harr, List.drop_append, List.drop_append]
    rw [List.drop_left' (by rfl : ([37, 4, 9] : List Nat).length = 3), ← hlats,
      List.take_left]

/-! ## Witnesses -/

/-- Witness for C5 at a concrete rejected input (provider data of length 2,
not a multiple of 4): the error is `invalid_argument` and the caller buffer
`[9, 9]` is untouched. -/
theorem generateKey_reject_invalidArgument_untouched_witness :
    ValidateProviderData (some ("AB".toList)) ≠ .ok () ∧
    (∃ m, (Cask_GenerateKey (some ("AB".toList)) (some ("ACME".toList))
        (some ("AB".toList)) 18 40 [9, 9] (List.replicate 18 0) 2024 1).1 =
        .error (.invalidArgument m) ∧
      (Cask_GenerateKey (some ("AB".toList)) (some ("ACME".toList))
        (some ("AB".toList)) 18 40 [9, 9] (List.replicate 18 0) 2024 1).2 = [9, 9]) :=
  ⟨by decide, generateKey_reject_invalidArgument_untouched (some ("AB".toList))
    (some ("ACME".toList)) (some ("AB".toList)) 18 40 [9, 9] (List.replicate 18 0) 2024 1
    (Or.inr (Or.inr (Or.inl (by decide))))⟩

/-- Witness for C6 at the concrete buffer `[1, 2, 3]`. -/
theorem base64_encode_decode_roundtrip_witness :
    (∀ x ∈ [1, 2, 3], x < 256) ∧ [1, 2, 3].length % 3 = 0 ∧
    DecodeFromChars (Base64UrlEncode [1, 2, 3]) 3 = .ok ([1, 2, 3], 3) :=
  ⟨by decide, by decide, base64_encode_decode_roundtrip [1, 2, 3] (by decide) (by decide)⟩

/-- Witness for C7 (amended) at the concrete input `"@AAA"`. -/
theorem decodeFromChars_rejects_nonalphabet_witness :
    (("@AAA".toList.takeWhile (fun c => c != '=')).any
      (fun c => 64 ≤ posOf (replChar c)) = true) ∧
    ("@AAA".toList.length + 3) / 4 * 3 ≤ 3 ∧
    DecodeFromChars ("@AAA".toList) 3 =
      .error (.invalidArgument ("Invalid Base64 character.")) :=
  ⟨by decide, by decide,
    decodeFromChars_rejects_nonalphabet ("@AAA".toList) 3 (by decide) (by decide)⟩

/-- Witness for C8 at a concrete valid input with provider data `"QUJD"`
(entropy 18, clock 2025-07): raw length 33 and the sentinel at offset 21. -/
theorem generateKey_sentinel_at_offset_witness :
    ValidateProviderData (some ("QUJD".toList)) = .ok () ∧
    (Cask_GenerateKey (some ("AB".toList)) (some ("ACME".toList)) (some ("QUJD".toList))
        18 44 [] (List.replicate 18 0) 2025 7).1 =
      .ok (RoundUpTo3ByteAlignment 18 +
        Base64CharsToBytes (("QUJD".toList).length : Int) + 12) ∧
    (((Cask_GenerateKey (some ("AB".toList)) (some ("ACME".toList)) (some ("QUJD".toList))
        18 44 [] (List.replicate 18 0) 2025 7).2).drop
      ((RoundUpTo3ByteAlignment 18).toNat +
        (Base64CharsToBytes (("QUJD".toList).length : Int)).toNat)).take 3 =
      [0x25, 0x04, 0x09] :=
  ⟨by decide,
    generateKey_sentinel_at_offset ("AB".toList) ("ACME".toList) ("QUJD".toList) 18 44 []
      (List.replicate 18 0) 2025 7 (by decide) (by decide) (by decide) (by decide)
      (by decide) (by decide) (by decide) (by decide) (by decide)⟩

/-- Witness for C9 (amended) at a concrete valid input (clock 2025-07):
the in-range arm produces the decoded allocator-and-timestamp bytes at
offset `S + P + 3`, and the out-of-range arm is vacuous there. -/
theorem generateKey_timestamp_amended_witness :
    ValidateSecretEntropy (RoundUpTo3ByteAlignment 18) = .ok () ∧
    (((2025 : Int) < 2024 ∨ (2025 : Int) > 2087) →
      (Cask_GenerateKey (some ("AB".toList)) (some ("ACME".toList)) (some ("QUJD".toList))
          18 44 [] (List.replicate 18 0) 2025 7).1 =
        .error (.invalidArgument
          ("CASK requires the current year to be between 2024 and 2087.")) ∧
      (Cask_GenerateKey (some ("AB".toList)) (some ("ACME".toList)) (some ("QUJD".toList))
          18 44 [] (List.replicate 18 0) 2025 7).2 = []) ∧
    ((2024 : Int) ≤ 2025 → (2025 : Int) ≤ 2087 →
      ∃ atsB, DecodeFromChars [("AB".toList).getD 0 'A', ("AB".toList).getD 1 'A',
          Base64UrlChars.getD ((2025 : Int) - 2024).toNat 'A',
          Base64UrlChars.getD ((7 : Int) - 1).toNat 'A'] 9 = .ok (atsB, 3) ∧
        (((Cask_GenerateKey (some ("AB".toList)) (some ("ACME".toList))
            (some ("QUJD".toList)) 18 44 [] (List.replicate 18 0) 2025 7).2).drop
          ((RoundUpTo3ByteAlignment 18).toNat +
            (Base64CharsToBytes (("QUJD".toList).length : Int)).toNat + 3)).take 3 = atsB) :=
  ⟨by decide,
    generateKey_timestamp_amended ("AB".toList) ("ACME".toList) ("QUJD".toList) 18 44 []
      (List.replicate 18 0) 2025 7 (by decide) (by decide) (by decide) (by decide)
      (by decide) (by decide) (by decide)⟩
